import Mathlib

/-!
Verification development for the `@salespark/route-utils` package
(source: `src/index.ts`).

The library is a response-normalization layer for Express-like route
handlers.  Its observable behaviour is:

* `resolveRouteResponse(res, response)` — the core primitive that commits
  an HTTP response (status code, headers, body) onto an Express-like
  response object and returns a boolean;
* `wrapRoute(handler, options)` — a middleware wrapper around an async
  handler; and
* `createResponder(res, options)` — an in-route responder factory.

The embedding below models JavaScript values with the inductive type
`JSValue`, the Express-like response object with the structure `Sink`
(capability flags, throw flags and the `headersSent` property), and each
call that mutates the response as an element of `SinkOp`.  Method calls
that may raise are modelled in an explicit exception style: a call yields
an `Except JSValue _` together with the list of mutations that actually
happened.  Exceptions raised by a missing or throwing method are modelled
as fixed `TypeError`/`Error` values.  Asynchronous handlers are modelled
by their eventual outcome: `Except JSValue JSValue` (resolved value or
rejection/throw value).  Logger calls are collected in a list of
`(payload, tag)` pairs.  `headersSent` is read-only within one modelled
call: in the source no branch re-reads it after a successful send inside
the same invocation, so a static field is faithful.
-/

set_option maxHeartbeats 1000000

namespace RouteUtils

/-- A JavaScript value, as far as the library observes one.  `error n m`
models an `Error` instance with `name` `n` and `message` `m`; `obj`
models a plain object as an association list of own enumerable
properties. -/
inductive JSValue where
  | undefined
  | null
  | bool (b : Bool)
  | num (q : Rat)
  | str (s : String)
  | obj (fields : List (String × JSValue))
  | error (name message : String)

/-- JavaScript truthiness of a value (NaN is not modelled). -/
def jsTruthy : JSValue → Bool
  | .undefined => false
  | .null => false
  | .bool b => b
  | .num q => !(q == 0)
  | .str s => !(s == "")
  | .obj _ => true
  | .error _ _ => true

/-- JavaScript `typeof`. -/
def jsTypeof : JSValue → String
  | .undefined => "undefined"
  | .null => "object"
  | .bool _ => "boolean"
  | .num _ => "number"
  | .str _ => "string"
  | .obj _ => "object"
  | .error _ _ => "object"

/-- JavaScript `String(v)` as used for header values and template
literals.  Fractional numbers are rendered as `num/den`, which is only a
placeholder spelling: no claim observes the rendering of a fractional
number. -/
def jsToString : JSValue → String
  | .undefined => "undefined"
  | .null => "null"
  | .bool b => cond b "true" "false"
  | .num q => if q.den == 1 then toString q.num else toString q.num ++ "/" ++ toString q.den
  | .str s => s
  | .obj _ => "[object Object]"
  | .error n m => if m == "" then n else n ++ ": " ++ m

/-- First binding of a key in an association list, `undefined` when
absent (JavaScript property read on a plain object). -/
def lookupField : List (String × JSValue) → String → JSValue
  | [], _ => .undefined
  | (k', v) :: rest, k => if k' = k then v else lookupField rest k

/-- Whether an association list binds a key. -/
def hasKey : List (String × JSValue) → String → Bool
  | [], _ => false
  | (k', _) :: rest, k => k' == k || hasKey rest k

/-- JavaScript property read `v[k]` for the keys the library uses.  On an
`Error` instance, `name` and `message` resolve through the instance and
its prototype; every other key the library reads resolves to
`undefined`. -/
def getField : JSValue → String → JSValue
  | .obj fs, k => lookupField fs k
  | .error n m, k => if k = "name" then .str n else if k = "message" then .str m else .undefined
  | _, _ => .undefined

/-- `Object.prototype.hasOwnProperty.call(v, k)`.  On an `Error`
instance the own (non-enumerable) property is `message`; the library only
ever asks for `"status"` here. -/
def hasOwnField : JSValue → String → Bool
  | .obj fs, k => hasKey fs k
  | .error _ _, k => k == "message"
  | _, _ => false

/-- Optional chaining `v?.[k]`: `undefined` when `v` is nullish. -/
def optField (v : JSValue) (k : String) : JSValue :=
  match v with
  | .undefined => .undefined
  | .null => .undefined
  | _ => getField v k

/-- Nullish coalescing `v ?? d`. -/
def nullCoalesce (v d : JSValue) : JSValue :=
  match v with
  | .undefined => d
  | .null => d
  | _ => v

/-- `Object.entries(v)` restricted to the shapes the library feeds it: a
plain object yields its fields, an `Error` instance has no own
enumerable properties, everything else yields nothing. -/
def jsEntries : JSValue → List (String × JSValue)
  | .obj fs => fs
  | _ => []

/-- The Express-like response object (`ResLike` in the source), abstracted
to what the library observes: whether `status`/`send`/`json`/`setHeader`
are functions, whether each of those calls throws when made, and the
`headersSent` property. -/
structure Sink where
  hasStatus : Bool
  hasSend : Bool
  hasJson : Bool
  hasSetHeader : Bool
  statusThrows : Bool
  sendThrows : Bool
  jsonThrows : Bool
  setHeaderThrows : Bool
  headersSent : Bool
deriving DecidableEq

/-- One successful mutation of the response object. -/
inductive SinkOp where
  | setStatus (code : Int)
  | sendJson (body : JSValue)
  | sendEmpty
  | setHeader (name value : String)

/-- Thrown value when `res.status` is not a function. -/
def statusNotFn : JSValue := .error "TypeError" "res.status is not a function"

/-- Thrown value when `res.json` is not a function. -/
def jsonNotFn : JSValue := .error "TypeError" "res.json is not a function"

/-- Thrown value when `res.send` is not a function. -/
def sendNotFn : JSValue := .error "TypeError" "res.send is not a function"

/-- Thrown value when a property is read off a nullish response object. -/
def nullPropError : JSValue := .error "TypeError" "Cannot read properties of null"

/-- The chained call `res.status(code).json(body)`: outcome plus the
mutations that actually happened (a throwing step records nothing). -/
def statusJson (s : Sink) (code : Int) (body : JSValue) : Except JSValue Unit × List SinkOp :=
  if !s.hasStatus then (.error statusNotFn, [])
  else if s.statusThrows then (.error (.error "Error" "status threw"), [])
  else if !s.hasJson then (.error jsonNotFn, [.setStatus code])
  else if s.jsonThrows then (.error (.error "Error" "json threw"), [.setStatus code])
  else (.ok (), [.setStatus code, .sendJson body])

/-- The chained call `res.status(code).send()`. -/
def statusSend (s : Sink) (code : Int) : Except JSValue Unit × List SinkOp :=
  if !s.hasStatus then (.error statusNotFn, [])
  else if s.statusThrows then (.error (.error "Error" "status threw"), [])
  else if !s.hasSend then (.error sendNotFn, [.setStatus code])
  else if s.sendThrows then (.error (.error "Error" "send threw"), [.setStatus code])
  else (.ok (), [.setStatus code, .sendEmpty])

/-- The header-application loop of `resolveRouteResponse`
(`src/index.ts:207-215`): if `response.headers` is a truthy object, each
entry is attempted with `res.setHeader?.(k, String(v))` inside its own
`try`/`catch`, so a missing or throwing `setHeader` is silent and never
aborts the loop. -/
def headerOps (s : Sink) (h : JSValue) : List SinkOp :=
  if jsTruthy h && (jsTypeof h == "object") then
    (jsEntries h).filterMap fun kv =>
      if s.hasSetHeader && !s.setHeaderThrows then some (.setHeader kv.1 (jsToString kv.2)) else none
  else []

/-- `response && typeof response === "object" &&
Object.prototype.hasOwnProperty.call(response, "status")`
(`src/index.ts:188`). -/
def isResultObject (r : JSValue) : Bool :=
  jsTruthy r && (jsTypeof r == "object") && hasOwnField r "status"

/-- `response.data === undefined || response.data === null ||
response.data === ""` (`src/index.ts:204`). -/
def is204Data : JSValue → Bool
  | .undefined => true
  | .null => true
  | .str s => s == ""
  | _ => false

/-- `Number.isInteger(response?.http) && response.http >= 100 &&
response.http <= 599` (`src/index.ts:203`). -/
def validHttp : JSValue → Bool
  | .num q => q.den == 1 && decide ((100 : Rat) ≤ q) && decide (q ≤ (599 : Rat))
  | _ => false

/-- The integer value of a valid explicit `http` field. -/
def httpInt : JSValue → Int
  | .num q => q.num
  | _ => 0

/-- The error-body derivation of the failure path
(`src/index.ts:229-238`): `Error` instances map to
`{error: name || "Error", message}`; truthy plain objects keep their
`error` and `message` fields when those are truthy and drop everything
else; any other value maps to `{error: "RequestFailed", message}` with
the value itself as message when it is a string. -/
def errBodyFor (raw : JSValue) : JSValue :=
  match raw with
  | .error n m => .obj [("error", .str (if n == "" then "Error" else n)), ("message", .str m)]
  | _ =>
    if jsTruthy raw && (jsTypeof raw == "object") then
      .obj ((if jsTruthy (getField raw "error") then [("error", getField raw "error")] else [])
        ++ (if jsTruthy (getField raw "message") then [("message", getField raw "message")] else []))
    else
      .obj [("error", .str "RequestFailed"),
            ("message", match raw with | .str s => .str s | _ => .str "Request failed")]

/-- The body of the outer `try` of `resolveRouteResponse`
(`src/index.ts:188-246`), after the capability guard and the
`headersSent` guard have passed.  Returns the outcome of the `try` body
(`.ok` for a `return true`, `.error e` for a value `e` thrown by a sink
method) together with the mutations performed. -/
def resolveCore (s : Sink) (response : JSValue) : Except JSValue Unit × List SinkOp :=
  if !isResultObject response then
    statusJson s 500 (.obj [("error", .str "MissingStatus"),
      ("message", .str "Missing `status` on response object")])
  else
    let isOk : Bool := match getField response "status" with | .bool true => true | _ => false
    let isFail : Bool := match getField response "status" with | .bool false => true | _ => false
    let http : Int :=
      if validHttp (getField response "http") then httpInt (getField response "http")
      else if isOk then (if is204Data (getField response "data") then 204 else 200) else 400
    let hops := headerOps s (getField response "headers")
    if isOk then
      if http = 204 then
        ((statusSend s http).1, hops ++ (statusSend s http).2)
      else
        ((statusJson s http (getField response "data")).1,
          hops ++ (statusJson s http (getField response "data")).2)
    else if isFail then
      ((statusJson s http (errBodyFor (getField response "data"))).1,
        hops ++ (statusJson s http (errBodyFor (getField response "data"))).2)
    else
      ((statusJson s 500 (.obj [("status", .bool false), ("error", .str "InvalidStatusField"),
          ("message", .str "`status` must be boolean")])).1,
        hops ++ (statusJson s 500 (.obj [("status", .bool false),
          ("error", .str "InvalidStatusField"),
          ("message", .str "`status` must be boolean")])).2)

/-- `resolveRouteResponse(res, response)` (`src/index.ts:179-257`).  The
boolean is the function's return value; the list is the sequence of
successful mutations of the response object.  The outer `catch` attempts
one last `res.status(500).json({status:false, error:"UnhandledResponderError", ...})`
and swallows any failure of that attempt, so the function itself is
total. -/
def resolveRouteResponse (res? : Option Sink) (response : JSValue) : Bool × List SinkOp :=
  match res? with
  | none => (false, [])
  | some s =>
    if !s.hasStatus || !s.hasSend then (false, [])
    else if s.headersSent then (true, [])
    else
      match resolveCore s response with
      | (.ok _, ops) => (true, ops)
      | (.error e, ops) =>
        if s.headersSent then (true, ops)
        else
          (true, ops ++ (statusJson s 500 (.obj [("status", .bool false),
            ("error", .str "UnhandledResponderError"),
            ("message", if jsTruthy (optField e "message") then optField e "message"
                        else .str "Unexpected error")])).2)

/-- The outcome of one invocation of a wrapped handler or of a responder:
its result (`.error e` models a rejection of the returned promise with
`e`), the successful response-object mutations, and the logger calls as
`(payload, tag)` pairs. -/
structure RunOutcome (α : Type) where
  result : Except JSValue α
  ops : List SinkOp
  logs : List (JSValue × String)

/-- The tag synthesized from the request when no explicit tag is given:
the template literal
`` `${req?.method ?? "?"} ${req?.originalUrl ?? "?"}` ``
(`src/index.ts:93`). -/
def synthesizedTag (req : JSValue) : String :=
  jsToString (nullCoalesce (optField req "method") (.str "?")) ++ " "
    ++ jsToString (nullCoalesce (optField req "originalUrl") (.str "?"))

/-- The effective tag of a wrapped handler (`src/index.ts:93-94`):
`const baseTag = options.tag || synthesized` followed by
`tagPrefix ? tagPrefix + baseTag : baseTag`.  The factory's tag prefix is
the first argument. -/
def effectiveTag (pre : String) (tagOpt : Option String) (req : JSValue) : String :=
  let baseTag :=
    match tagOpt with
    | some t => if t == "" then synthesizedTag req else t
    | none => synthesizedTag req
  if pre == "" then baseTag else pre ++ baseTag

/-- The `catch` block of the handler returned by `wrapRoute`
(`src/index.ts:106-113`): log the caught value under `tag + "/catch"`,
then, when `res.headersSent` is falsy, attempt
`res.status(500).json({error: err?.message || "Unexpected error"})`.
That attempt is not itself guarded, so its failure rejects the handler's
promise; reading `headersSent` off a nullish `res` likewise throws. -/
def wrapCatch (res? : Option Sink) (tag : String) (err : JSValue) : RunOutcome Unit :=
  let lg := [(err, tag ++ "/catch")]
  match res? with
  | none => ⟨.error nullPropError, [], lg⟩
  | some s =>
    if s.headersSent then ⟨.ok (), [], lg⟩
    else
      match statusJson s 500 (.obj [("error",
        if jsTruthy (optField err "message") then optField err "message"
        else .str "Unexpected error")]) with
      | (.ok _, ops) => ⟨.ok (), ops, lg⟩
      | (.error e, ops) => ⟨.error e, ops, lg⟩

/-- One invocation of the handler returned by `wrapRoute`
(`src/index.ts:91-114`), bound to the factory's tag prefix.  The
handler's own behaviour is summarized by `handlerOutcome`: the value its
promise resolves to, or the value it throws/rejects with. -/
def wrapRoute (pre : String) (tagOpt : Option String) (req : JSValue) (res? : Option Sink)
    (handlerOutcome : Except JSValue JSValue) : RunOutcome Unit :=
  let tag := effectiveTag pre tagOpt req
  match handlerOutcome with
  | .error err => wrapCatch res? tag err
  | .ok response =>
    let rr := resolveRouteResponse res? response
    if rr.1 then ⟨.ok (), rr.2, []⟩
    else
      let lg := [(JSValue.obj [("message", .str "Unexpected response shape"),
        ("response", response), ("route", .str tag)], tag)]
      match res? with
      | none =>
        let o := wrapCatch none tag nullPropError
        ⟨o.result, rr.2 ++ o.ops, lg ++ o.logs⟩
      | some s =>
        if s.headersSent then ⟨.ok (), rr.2, lg⟩
        else
          match statusJson s 500 (.obj [("error", .str "UnexpectedResponseShape")]) with
          | (.ok _, ops) => ⟨.ok (), rr.2 ++ ops, lg⟩
          | (.error e, ops) =>
            let o := wrapCatch (some s) tag e
            ⟨o.result, rr.2 ++ ops ++ o.ops, lg ++ o.logs⟩

/-- `options.tag || "createResponder"`, the fallback tag of the
responder (`src/index.ts:140` and `148`). -/
def responderTagBase (tagOpt : Option String) : String :=
  match tagOpt with
  | some t => if t == "" then "createResponder" else t
  | none => "createResponder"

/-- The `catch` block of the responder returned by `createResponder`
(`src/index.ts:146-154`): log under `tag + "/catch"`, then, when
`res.headersSent` is falsy, attempt
`res.status(500).json({status:false, error: message || "Unexpected error"})`
and `return true`.  As in `wrapCatch`, the attempt is unguarded. -/
def respCatch (res? : Option Sink) (tagOpt : Option String) (err : JSValue) : RunOutcome Bool :=
  let lg := [(err, responderTagBase tagOpt ++ "/catch")]
  match res? with
  | none => ⟨.error nullPropError, [], lg⟩
  | some s =>
    if s.headersSent then ⟨.ok true, [], lg⟩
    else
      match statusJson s 500 (.obj [("status", .bool false), ("error",
        if jsTruthy (optField err "message") then optField err "message"
        else .str "Unexpected error")]) with
      | (.ok _, ops) => ⟨.ok true, ops, lg⟩
      | (.error e, ops) => ⟨.error e, ops, lg⟩

/-- One invocation of the responder returned by `createResponder`
(`src/index.ts:134-155`), with the unit of work summarized by its
outcome `workOutcome`. -/
def createResponder (res? : Option Sink) (tagOpt : Option String)
    (workOutcome : Except JSValue JSValue) : RunOutcome Bool :=
  match workOutcome with
  | .error err => respCatch res? tagOpt err
  | .ok response =>
    let rr := resolveRouteResponse res? response
    if rr.1 then ⟨.ok true, rr.2, []⟩
    else
      let lg := [(JSValue.obj [("message", .str "Unexpected response shape"),
        ("response", response)], responderTagBase tagOpt)]
      match res? with
      | none =>
        let o := respCatch none tagOpt nullPropError
        ⟨o.result, rr.2 ++ o.ops, lg ++ o.logs⟩
      | some s =>
        if s.headersSent then ⟨.ok true, rr.2, lg⟩
        else
          match statusJson s 500 (.obj [("status", .bool false),
            ("error", .str "UnexpectedResponseShape")]) with
          | (.ok _, ops) => ⟨.ok true, rr.2 ++ ops, lg⟩
          | (.error e, ops) =>
            let o := respCatch (some s) tagOpt e
            ⟨o.result, rr.2 ++ ops ++ o.ops, lg ++ o.logs⟩

/-- Whether the response-object argument of `resolveRouteResponse`
passes its capability guard (`src/index.ts:182`): `res` is non-nullish
and its `status` and `send` members are functions. -/
def sinkCapable (res? : Option Sink) : Bool :=
  match res? with
  | none => false
  | some s => s.hasStatus && s.hasSend

/-- The sink is fully functional: the guard passes, `json` is a function
as well, and none of the three calls throws. -/
def Sink.reliable (s : Sink) : Bool :=
  s.hasStatus && s.hasSend && s.hasJson && !s.statusThrows && !s.sendThrows && !s.jsonThrows

/-- The mutations of a trace that commit the response: everything except
header-setting. -/
def commits (l : List SinkOp) : List SinkOp :=
  l.filter fun op => match op with | .setHeader _ _ => false | _ => true

/-- Whether a trace contains a JSON body send. -/
def hasJsonBody (l : List SinkOp) : Bool :=
  l.any fun op => match op with | .sendJson _ => true | _ => false

/-- Replace (or add) the `meta` field of a result object; on a non-object
this is the identity. -/
def upsert : List (String × JSValue) → String → JSValue → List (String × JSValue)
  | [], k, v => [(k, v)]
  | (k', v') :: rest, k, v => if k' = k then (k', v) :: rest else (k', v') :: upsert rest k v

/-- A result that differs from `r` only in its `meta` field, which holds
`v`. -/
def setMeta (r : JSValue) (v : JSValue) : JSValue :=
  match r with
  | .obj fs => .obj (upsert fs "meta" v)
  | _ => r

/-- The tag computation of `wrapRoute` as §4.3 of the specification
words it, amended: the explicit non-empty `tag` option, otherwise the
synthesized `"{method} {path}"`, always carrying the factory prefix in
front (an empty prefix is invisible). -/
def specTag (pre : String) (tagOpt : Option String) (req : JSValue) : String :=
  pre ++ match tagOpt with
    | some t => if t ≠ "" then t else synthesizedTag req
    | none => synthesizedTag req

/-- A fully functional sink: all four methods present, none throws, no
response committed yet. -/
def okSink : Sink := ⟨true, true, true, true, false, false, false, false, false⟩

/-! ### Helper lemmas -/

theorem reliable_elim (s : Sink) (h : s.reliable = true) :
    s.hasStatus = true ∧ s.hasSend = true ∧ s.hasJson = true ∧
    s.statusThrows = false ∧ s.sendThrows = false ∧ s.jsonThrows = false := by
  simp only [Sink.reliable, Bool.and_eq_true, Bool.not_eq_true'] at h
  exact ⟨h.1.1.1.1.1, h.1.1.1.1.2, h.1.1.1.2, h.1.1.2, h.1.2, h.2⟩

theorem statusJson_ok (s : Sink) (c : Int) (b : JSValue)
    (h1 : s.hasStatus = true) (h2 : s.hasJson = true)
    (h3 : s.statusThrows = false) (h4 : s.jsonThrows = false) :
    statusJson s c b = (.ok (), [.setStatus c, .sendJson b]) := by
  simp [statusJson, h1, h2, h3, h4]

theorem statusSend_ok (s : Sink) (c : Int)
    (h1 : s.hasStatus = true) (h2 : s.hasSend = true)
    (h3 : s.statusThrows = false) (h4 : s.sendThrows = false) :
    statusSend s c = (.ok (), [.setStatus c, .sendEmpty]) := by
  simp [statusSend, h1, h2, h3, h4]

theorem commits_append (a b : List SinkOp) : commits (a ++ b) = commits a ++ commits b := by
  simp [commits]

theorem commits_filterMap_setHeader (P : Bool) (l : List (String × JSValue)) :
    commits (l.filterMap fun kv =>
      if P then some (.setHeader kv.1 (jsToString kv.2)) else none) = [] := by
  induction l with
  | nil => rfl
  | cons kv tl ih =>
    cases P with
    | false => simpa [List.filterMap_cons] using ih
    | true => simpa [List.filterMap_cons, commits, List.filter_cons] using ih

theorem commits_headerOps (s : Sink) (h : JSValue) : commits (headerOps s h) = [] := by
  unfold headerOps
  split
  · exact commits_filterMap_setHeader _ _
  · rfl

theorem resolveCore_ok_spec (s : Sink) (r : JSValue) (code : Int) (hrel : s.reliable = true)
    (hobj : isResultObject r = true) (hst : getField r "status" = .bool true)
    (hcode : code = (if validHttp (getField r "http") then httpInt (getField r "http")
      else if is204Data (getField r "data") then 204 else 200)) :
    resolveCore s r = (.ok (), headerOps s (getField r "headers") ++
      [.setStatus code,
       if code = 204 then .sendEmpty else .sendJson (getField r "data")]) := by
  obtain ⟨h1, h2, h3, h4, h5, h6⟩ := reliable_elim s hrel
  subst hcode
  unfold resolveCore
  rw [hobj]
  by_cases h204 : ((if validHttp (getField r "http") then httpInt (getField r "http")
      else if is204Data (getField r "data") then 204 else 200) : Int) = 204
  all_goals simp [hst, statusSend_ok s _ h1 h2 h4 h5, statusJson_ok s _ _ h1 h3 h4 h6, h204]

theorem resolveCore_fail_spec (s : Sink) (r : JSValue) (code : Int) (hrel : s.reliable = true)
    (hobj : isResultObject r = true) (hst : getField r "status" = .bool false)
    (hcode : code = (if validHttp (getField r "http") then httpInt (getField r "http") else 400)) :
    resolveCore s r = (.ok (), headerOps s (getField r "headers") ++
      [.setStatus code, .sendJson (errBodyFor (getField r "data"))]) := by
  obtain ⟨h1, h2, h3, h4, h5, h6⟩ := reliable_elim s hrel
  subst hcode
  unfold resolveCore
  rw [hobj]
  simp only [Bool.not_true, Bool.false_eq_true, if_false, hst,
    statusJson_ok s _ _ h1 h3 h4 h6]
  simp

theorem resolve_of_core_ok (s : Sink) (r : JSValue) (ops : List SinkOp)
    (h1 : s.hasStatus = true) (h2 : s.hasSend = true) (hns : s.headersSent = false)
    (hc : resolveCore s r = (.ok (), ops)) :
    resolveRouteResponse (some s) r = (true, ops) := by
  simp [resolveRouteResponse, h1, h2, hns, hc]

theorem resolve_fst_capable (s : Sink) (r : JSValue)
    (h1 : s.hasStatus = true) (h2 : s.hasSend = true) :
    (resolveRouteResponse (some s) r).1 = true := by
  rcases hc : resolveCore s r with ⟨e, ops⟩
  cases e with
  | ok u =>
    simp only [resolveRouteResponse, h1, h2, hc, Bool.not_true, Bool.or_self,
      Bool.false_eq_true, if_false]
    split <;> rfl
  | error v =>
    rcases hsj : statusJson s 500 (.obj [("status", .bool false),
      ("error", .str "UnhandledResponderError"),
      ("message", if jsTruthy (optField v "message") then optField v "message"
                  else .str "Unexpected error")]) with ⟨e2, ops2⟩
    simp only [resolveRouteResponse, h1, h2, hc, hsj, Bool.not_true, Bool.or_self,
      Bool.false_eq_true, if_false]
    split <;> rfl

theorem commits_head (s : Sink) (hv : JSValue) (c : Int) (x : SinkOp) :
    (commits (headerOps s hv ++ [.setStatus c, x])).head? = some (.setStatus c) := by
  rw [commits_append, commits_headerOps]
  simp [commits, List.filter_cons]

theorem commits_app_body (s : Sink) (hv : JSValue) (c : Int) (b : JSValue) :
    commits (headerOps s hv ++ [.setStatus c, .sendJson b]) = [.setStatus c, .sendJson b] := by
  rw [commits_append, commits_headerOps]
  simp [commits, List.filter_cons]

theorem lookupField_upsert (fs : List (String × JSValue)) (k : String) (v : JSValue)
    (k' : String) (h : k' ≠ k) : lookupField (upsert fs k v) k' = lookupField fs k' := by
  induction fs with
  | nil =>
    have hkk : ¬(k = k') := fun hh => h hh.symm
    simp [upsert, lookupField, hkk]
  | cons kv rest ih =>
    obtain ⟨k1, v1⟩ := kv
    by_cases h1 : k1 = k
    · subst h1
      have hkk : ¬(k1 = k') := fun hh => h hh.symm
      simp [upsert, lookupField, hkk]
    · simp [upsert, h1, lookupField, ih]

theorem hasKey_upsert (fs : List (String × JSValue)) (k : String) (v : JSValue)
    (k' : String) (h : k' ≠ k) : hasKey (upsert fs k v) k' = hasKey fs k' := by
  induction fs with
  | nil =>
    have hkk : ¬(k = k') := fun hh => h hh.symm
    simp [upsert, hasKey, hkk]
  | cons kv rest ih =>
    obtain ⟨k1, v1⟩ := kv
    by_cases h1 : k1 = k
    · subst h1
      simp [upsert, hasKey]
    · simp [upsert, h1, hasKey, ih]

theorem getField_setMeta (r v : JSValue) (k : String) (h : k ≠ "meta") :
    getField (setMeta r v) k = getField r k := by
  cases r <;> simp only [setMeta, getField]
  exact lookupField_upsert _ _ _ _ h

theorem hasOwnField_setMeta (r v : JSValue) (k : String) (h : k ≠ "meta") :
    hasOwnField (setMeta r v) k = hasOwnField r k := by
  cases r <;> simp only [setMeta, hasOwnField]
  exact hasKey_upsert _ _ _ _ h

theorem jsTruthy_setMeta (r v : JSValue) : jsTruthy (setMeta r v) = jsTruthy r := by
  cases r <;> rfl

theorem jsTypeof_setMeta (r v : JSValue) : jsTypeof (setMeta r v) = jsTypeof r := by
  cases r <;> rfl

theorem isResultObject_setMeta (r v : JSValue) :
    isResultObject (setMeta r v) = isResultObject r := by
  simp only [isResultObject, jsTruthy_setMeta, jsTypeof_setMeta,
    hasOwnField_setMeta r v "status" (by decide)]

theorem resolveCore_setMeta (s : Sink) (r v : JSValue) :
    resolveCore s (setMeta r v) = resolveCore s r := by
  unfold resolveCore
  rw [isResultObject_setMeta, getField_setMeta r v "status" (by decide),
    getField_setMeta r v "http" (by decide), getField_setMeta r v "data" (by decide),
    getField_setMeta r v "headers" (by decide)]

theorem resolve_setMeta (res? : Option Sink) (r v : JSValue) :
    resolveRouteResponse res? (setMeta r v) = resolveRouteResponse res? r := by
  cases res? with
  | none => rfl
  | some s => simp only [resolveRouteResponse, resolveCore_setMeta]

theorem hasJsonBody_append (a b : List SinkOp) :
    hasJsonBody (a ++ b) = (hasJsonBody a || hasJsonBody b) := by
  simp [hasJsonBody]

theorem hasJsonBody_filterMap_setHeader (P : Bool) (l : List (String × JSValue)) :
    hasJsonBody (l.filterMap fun kv =>
      if P then some (.setHeader kv.1 (jsToString kv.2)) else none) = false := by
  induction l with
  | nil => rfl
  | cons kv tl ih =>
    cases P with
    | false => simpa [List.filterMap_cons] using ih
    | true => simp [List.filterMap_cons, hasJsonBody, List.any_cons, ih]

theorem hasJsonBody_headerOps (s : Sink) (h : JSValue) :
    hasJsonBody (headerOps s h) = false := by
  unfold headerOps
  split
  · exact hasJsonBody_filterMap_setHeader _ _
  · rfl

theorem hasJsonBody_statusSend (s : Sink) (c : Int) :
    hasJsonBody (statusSend s c).2 = false := by
  unfold statusSend
  repeat' split
  all_goals rfl

theorem hasJsonBody_statusJson_noJson (s : Sink) (c : Int) (b : JSValue)
    (h : s.hasJson = false) : hasJsonBody (statusJson s c b).2 = false := by
  unfold statusJson
  rw [h]
  repeat' split
  all_goals first | rfl | simp_all

theorem hasJsonBody_snd_ite {c : Prop} [Decidable c]
    (a b : Except JSValue Unit × List SinkOp) :
    hasJsonBody (if c then a else b).2 = if c then hasJsonBody a.2 else hasJsonBody b.2 := by
  split <;> rfl

theorem hasJsonBody_resolveCore_noJson (s : Sink) (r : JSValue) (h : s.hasJson = false) :
    hasJsonBody (resolveCore s r).2 = false := by
  unfold resolveCore
  repeat' split
  all_goals simp [hasJsonBody_snd_ite, hasJsonBody_append, hasJsonBody_headerOps,
    hasJsonBody_statusSend, hasJsonBody_statusJson_noJson _ _ _ h]

theorem hasJsonBody_resolve_noJson (s : Sink) (r : JSValue) (h : s.hasJson = false) :
    hasJsonBody (resolveRouteResponse (some s) r).2 = false := by
  rcases hc : resolveCore s r with ⟨e, ops⟩
  have hops : hasJsonBody ops = false := by
    have h0 := hasJsonBody_resolveCore_noJson s r h
    rw [hc] at h0
    exact h0
  cases e with
  | ok u =>
    simp only [resolveRouteResponse, hc]
    repeat' split
    all_goals first | exact hops | rfl
  | error v =>
    simp only [resolveRouteResponse, hc]
    repeat' split
    all_goals first
      | exact hops
      | rfl
      | simp [hasJsonBody_append, hops, hasJsonBody_statusJson_noJson _ _ _ h]

theorem wrapCatch_logs (res? : Option Sink) (tag : String) (err : JSValue) :
    (wrapCatch res? tag err).logs = [(err, tag ++ "/catch")] := by
  unfold wrapCatch
  cases res? with
  | none => rfl
  | some s =>
    repeat' split
    all_goals rfl

theorem wrapCatch_reliable (s : Sink) (tag : String) (err : JSValue)
    (h1 : s.hasStatus = true) (h3 : s.hasJson = true)
    (h4 : s.statusThrows = false) (h6 : s.jsonThrows = false)
    (hns : s.headersSent = false) :
    wrapCatch (some s) tag err = ⟨.ok (), [.setStatus 500, .sendJson (.obj [("error",
      if jsTruthy (optField err "message") then optField err "message"
      else .str "Unexpected error")])], [(err, tag ++ "/catch")]⟩ := by
  simp [wrapCatch, hns, statusJson_ok s _ _ h1 h3 h4 h6]

theorem respCatch_reliable (s : Sink) (tagOpt : Option String) (err : JSValue)
    (h1 : s.hasStatus = true) (h3 : s.hasJson = true)
    (h4 : s.statusThrows = false) (h6 : s.jsonThrows = false)
    (hns : s.headersSent = false) :
    respCatch (some s) tagOpt err = ⟨.ok true, [.setStatus 500, .sendJson (.obj
      [("status", .bool false), ("error",
        if jsTruthy (optField err "message") then optField err "message"
        else .str "Unexpected error")])],
      [(err, responderTagBase tagOpt ++ "/catch")]⟩ := by
  simp [respCatch, hns, statusJson_ok s _ _ h1 h3 h4 h6]

theorem effectiveTag_eq_specTag (pre : String) (tagOpt : Option String) (req : JSValue) :
    effectiveTag pre tagOpt req = specTag pre tagOpt req := by
  unfold effectiveTag specTag
  have hemp : ∀ t : String, "" ++ t = t := fun t => rfl
  cases tagOpt with
  | none =>
    by_cases hp : pre = "" <;> simp [hp, hemp]
  | some t =>
    by_cases ht : t = "" <;> by_cases hp : pre = "" <;> simp [ht, hp, hemp]

/-! ### Claim theorems -/

/-- Claim C1: for every result object with boolean `status` and no valid
explicit `http`, `resolveRouteResponse` commits the default status code:
success with `undefined`/`null`/empty-string data commits 204 with an
empty body; success with any other data commits 200 with the data sent
verbatim as the JSON body; failure commits 400. -/
theorem claim1_default_status_mapping (s : Sink) (r : JSValue)
    (hrel : s.reliable = true) (hns : s.headersSent = false)
    (hobj : isResultObject r = true)
    (hh : validHttp (getField r "http") = false) :
    (getField r "status" = .bool true →
      (getField r "data" = .undefined ∨ getField r "data" = .null ∨ getField r "data" = .str "") →
      resolveRouteResponse (some s) r =
        (true, headerOps s (getField r "headers") ++ [.setStatus 204, .sendEmpty])) ∧
    (getField r "status" = .bool true →
      getField r "data" ≠ .undefined → getField r "data" ≠ .null → getField r "data" ≠ .str "" →
      resolveRouteResponse (some s) r =
        (true, headerOps s (getField r "headers") ++
          [.setStatus 200, .sendJson (getField r "data")])) ∧
    (getField r "status" = .bool false →
      ∃ b, resolveRouteResponse (some s) r =
        (true, headerOps s (getField r "headers") ++ [.setStatus 400, .sendJson b])) := by
  obtain ⟨h1, h2, _, _, _, _⟩ := reliable_elim s hrel
  refine ⟨?_, ?_, ?_⟩
  · intro hst hd
    have h204 : is204Data (getField r "data") = true := by
      rcases hd with h | h | h <;> simp [h, is204Data]
    have hcode : (204 : Int) = (if validHttp (getField r "http") then httpInt (getField r "http")
        else if is204Data (getField r "data") then 204 else 200) := by
      simp [hh, h204]
    have hr := resolve_of_core_ok s r _ h1 h2 hns
      (resolveCore_ok_spec s r 204 hrel hobj hst hcode)
    rw [hr]
    simp
  · intro hst hd1 hd2 hd3
    have h204 : is204Data (getField r "data") = false := by
      cases hdata : getField r "data" with
      | undefined => exact absurd hdata hd1
      | null => exact absurd hdata hd2
      | str st =>
        by_cases hs : st = ""
        · subst hs; exact absurd hdata hd3
        · simp [is204Data, hs]
      | bool b => rfl
      | num q => rfl
      | obj fs => rfl
      | error n m => rfl
    have hcode : (200 : Int) = (if validHttp (getField r "http") then httpInt (getField r "http")
        else if is204Data (getField r "data") then 204 else 200) := by
      simp [hh, h204]
    have hr := resolve_of_core_ok s r _ h1 h2 hns
      (resolveCore_ok_spec s r 200 hrel hobj hst hcode)
    rw [hr]
    simp
  · intro hst
    have hcode : (400 : Int) = (if validHttp (getField r "http")
        then httpInt (getField r "http") else 400) := by
      simp [hh]
    exact ⟨errBodyFor (getField r "data"), resolve_of_core_ok s r _ h1 h2 hns
      (resolveCore_fail_spec s r 400 hrel hobj hst hcode)⟩

/-- Claim C1 witness: a success with `null` data and no explicit `http`
commits 204 with an empty body on a fully functional sink. -/
theorem claim1_witness :
    okSink.reliable = true ∧
    resolveRouteResponse (some okSink) (.obj [("status", .bool true), ("data", .null)]) =
      (true, [.setStatus 204, .sendEmpty]) :=
  ⟨rfl, ((claim1_default_status_mapping okSink
      (.obj [("status", .bool true), ("data", .null)]) rfl rfl rfl rfl).1
    rfl (Or.inr (Or.inl rfl))).trans rfl⟩

/-- Claim C2: for every result object with boolean `status` whose `http`
field is a number, if that number is an integer in `[100, 599]` it is used
verbatim as the committed status code regardless of `status` and `data`;
if it is fractional or outside the range it is ignored and the default
204/200/400 mapping supplies the committed code. -/
theorem claim2_explicit_http (s : Sink) (r : JSValue) (q : Rat)
    (hrel : s.reliable = true) (hns : s.headersSent = false)
    (hobj : isResultObject r = true) (hq : getField r "http" = .num q) :
    (q.den = 1 → (100 : Rat) ≤ q → q ≤ 599 →
      (getField r "status" = .bool true ∨ getField r "status" = .bool false) →
      (commits (resolveRouteResponse (some s) r).2).head? = some (.setStatus q.num)) ∧
    ((q.den ≠ 1 ∨ q < 100 ∨ 599 < q) →
      (getField r "status" = .bool true →
        (commits (resolveRouteResponse (some s) r).2).head? =
          some (.setStatus (if is204Data (getField r "data") then 204 else 200))) ∧
      (getField r "status" = .bool false →
        (commits (resolveRouteResponse (some s) r).2).head? = some (.setStatus 400))) := by
  obtain ⟨h1, h2, _, _, _, _⟩ := reliable_elim s hrel
  constructor
  · intro hden h100 h599 hb
    have hvalid : validHttp (getField r "http") = true := by
      rw [hq]; simp [validHttp, hden, h100, h599]
    rcases hb with hst | hst
    · have hr := resolve_of_core_ok s r _ h1 h2 hns
        (resolveCore_ok_spec s r (httpInt (getField r "http")) hrel hobj hst
          (by simp [hvalid]))
      rw [hr, commits_head, hq]
      simp [httpInt]
    · have hr := resolve_of_core_ok s r _ h1 h2 hns
        (resolveCore_fail_spec s r (httpInt (getField r "http")) hrel hobj hst
          (by simp [hvalid]))
      rw [hr, commits_head, hq]
      simp [httpInt]
  · intro hnv
    have hvalid : validHttp (getField r "http") = false := by
      rw [hq]
      rcases hnv with hd | hlt | hgt
      · simp [validHttp, hd]
      · simp [validHttp, not_le.mpr hlt]
      · simp [validHttp, not_le.mpr hgt]
    constructor
    · intro hst
      have hr := resolve_of_core_ok s r _ h1 h2 hns
        (resolveCore_ok_spec s r (if is204Data (getField r "data") then 204 else 200)
          hrel hobj hst (by simp [hvalid]))
      rw [hr, commits_head]
    · intro hst
      have hr := resolve_of_core_ok s r _ h1 h2 hns
        (resolveCore_fail_spec s r 400 hrel hobj hst (by simp [hvalid]))
      rw [hr, commits_head]

/-- Claim C2 witness: the scenario of §8 of the specification — a failure
with explicit `http` 422 commits 422. -/
theorem claim2_witness :
    ((422 : Rat).den = 1 ∧ (100 : Rat) ≤ 422 ∧ (422 : Rat) ≤ 599) ∧
    (commits (resolveRouteResponse (some okSink)
      (.obj [("status", .bool false), ("http", .num 422),
        ("data", .obj [("error", .str "ValidationError"),
          ("message", .str "Name required")])])).2).head? =
      some (.setStatus 422) :=
  ⟨⟨rfl, by norm_num, by norm_num⟩,
    (claim2_explicit_http okSink
      (.obj [("status", .bool false), ("http", .num 422),
        ("data", .obj [("error", .str "ValidationError"),
          ("message", .str "Name required")])]) 422 rfl rfl rfl rfl).1
      rfl (by norm_num) (by norm_num) (Or.inr rfl)⟩

/-- Claim C3 counterexample: on `{status:false, data:{error:"", message:"m"}}`
the `error` field is an own property of `data`, yet the committed body is
`{message:"m"}` — the code copies the field only when it is truthy, not
whenever it is present, so the claim's "copies its `error` field (if
present)" fails. -/
theorem claim3_counterexample :
    commits (resolveRouteResponse (some okSink)
      (.obj [("status", .bool false),
        ("data", .obj [("error", .str ""), ("message", .str "m")])])).2 =
      [.setStatus 400, .sendJson (.obj [("message", .str "m")])] ∧
    hasOwnField (.obj [("error", .str ""), ("message", .str "m")]) "error" = true ∧
    hasOwnField (.obj [("message", .str "m")]) "error" = false :=
  ⟨rfl, rfl, rfl⟩

/-- Claim C3 (amended): for every result object with `status` strictly
false, the committed error body is derived from `data` in exactly three
cases: an `Error` instance yields `{error: name-or-"Error", message}`;
a plain object yields a body that keeps its `error` field when that field
is truthy and its `message` field when that field is truthy, dropping
every other field; any other value yields
`{error:"RequestFailed", message: data-if-string-else-"Request failed"}`. -/
theorem claim3_error_body (s : Sink) (r : JSValue)
    (hrel : s.reliable = true) (hns : s.headersSent = false)
    (hobj : isResultObject r = true) (hst : getField r "status" = .bool false) :
    (∀ n m, getField r "data" = .error n m →
      ∃ c, commits (resolveRouteResponse (some s) r).2 =
        [.setStatus c, .sendJson (.obj [("error", .str (if n == "" then "Error" else n)),
          ("message", .str m)])]) ∧
    (∀ fs, getField r "data" = .obj fs →
      ∃ c, commits (resolveRouteResponse (some s) r).2 =
        [.setStatus c, .sendJson (.obj
          ((if jsTruthy (lookupField fs "error")
            then [("error", lookupField fs "error")] else []) ++
           (if jsTruthy (lookupField fs "message")
            then [("message", lookupField fs "message")] else [])))]) ∧
    ((∀ n m, getField r "data" ≠ .error n m) → (∀ fs, getField r "data" ≠ .obj fs) →
      ∃ c, commits (resolveRouteResponse (some s) r).2 =
        [.setStatus c, .sendJson (.obj [("error", .str "RequestFailed"),
          ("message", match getField r "data" with
            | .str st => .str st
            | _ => .str "Request failed")])]) := by
  obtain ⟨h1, h2, _, _, _, _⟩ := reliable_elim s hrel
  have hr := resolve_of_core_ok s r _ h1 h2 hns
    (resolveCore_fail_spec s r (if validHttp (getField r "http")
      then httpInt (getField r "http") else 400) hrel hobj hst rfl)
  refine ⟨?_, ?_, ?_⟩
  · intro n m hd
    refine ⟨if validHttp (getField r "http") then httpInt (getField r "http") else 400, ?_⟩
    rw [hr, commits_app_body, hd]
    simp [errBodyFor]
  · intro fs hd
    refine ⟨if validHttp (getField r "http") then httpInt (getField r "http") else 400, ?_⟩
    rw [hr, commits_app_body, hd]
    simp [errBodyFor, jsTruthy, jsTypeof, getField]
  · intro hne hno
    refine ⟨if validHttp (getField r "http") then httpInt (getField r "http") else 400, ?_⟩
    rw [hr, commits_app_body]
    cases hdata : getField r "data" with
    | undefined => simp [errBodyFor, jsTruthy, jsTypeof]
    | null => simp [errBodyFor, jsTruthy, jsTypeof]
    | bool b => cases b <;> simp [errBodyFor, jsTruthy, jsTypeof]
    | num qq => simp [errBodyFor, jsTruthy, jsTypeof]
    | str st => simp [errBodyFor, jsTruthy, jsTypeof]
    | obj fs => exact absurd hdata (hno fs)
    | error n m => exact absurd hdata (hne n m)

/-- Claim C3 witness (amended claim): the spec scenario
`{status:false, data:"oops"}` commits body
`{error:"RequestFailed", message:"oops"}`. -/
theorem claim3_witness :
    commits (resolveRouteResponse (some okSink)
      (.obj [("status", .bool false), ("data", .str "oops")])).2 =
      [.setStatus 400, .sendJson (.obj [("error", .str "RequestFailed"),
        ("message", .str "oops")])] := by
  obtain ⟨c, hcl⟩ := (claim3_error_body okSink
    (.obj [("status", .bool false), ("data", .str "oops")]) rfl rfl rfl rfl).2.2
    (fun n m h => by cases h) (fun fs h => by cases h)
  exact rfl

/-- Claim C4 is false of the code: the unguarded `res.status(500).json(...)`
calls inside the `catch` blocks of `wrapRoute`'s handler and
`createResponder`'s responder themselves throw when the sink is broken, so
the returned promises reject instead of resolving.  Three evaluations: a
responder over a capable sink whose `status` method throws rejects when
the work function throws; a wrapped handler over a sink without a `status`
function rejects when the handler throws; a responder called without a
response object rejects even for a well-formed result. -/
theorem claim4_reject_evaluation :
    (createResponder (some ⟨true, true, true, true, true, false, false, false, false⟩)
      none (.error (.error "Error" "boom"))).result =
      .error (.error "Error" "status threw") ∧
    (wrapRoute "" none (.obj [("method", .str "GET"), ("originalUrl", .str "/x")])
      (some ⟨false, true, true, true, false, false, false, false, false⟩)
      (.error (.error "Error" "boom"))).result =
      .error statusNotFn ∧
    (createResponder none none (.ok (.obj [("status", .bool true)]))).result =
      .error nullPropError :=
  ⟨rfl, rfl, rfl⟩

/-- Claim C5: `resolveRouteResponse` returns `false` exactly when the
response object fails the minimal capability check (nullish, or its
status-setting or send member is not a function); in that case it performs
no mutation at all.  On any capable sink it returns `true`. -/
theorem claim5_false_conditions (res? : Option Sink) (r : JSValue) :
    ((resolveRouteResponse res? r).1 = false ↔ sinkCapable res? = false) ∧
    (sinkCapable res? = false → (resolveRouteResponse res? r).2 = []) := by
  cases res? with
  | none => exact ⟨by simp [resolveRouteResponse, sinkCapable], fun _ => rfl⟩
  | some s =>
    by_cases hcap : (s.hasStatus && s.hasSend) = true
    · obtain ⟨h1, h2⟩ := Bool.and_eq_true_iff.mp hcap
      have ht := resolve_fst_capable s r h1 h2
      constructor
      · rw [ht]
        simp [sinkCapable, hcap]
      · intro hc
        rw [sinkCapable] at hc
        rw [hcap] at hc
        cases hc
    · have hc : (s.hasStatus && s.hasSend) = false := by
        cases h : (s.hasStatus && s.hasSend)
        · rfl
        · exact absurd h hcap
      have hguard : (!s.hasStatus || !s.hasSend) = true := by
        cases ha : s.hasStatus <;> cases hb : s.hasSend <;> simp_all
      have hfalse : resolveRouteResponse (some s) r = (false, []) := by
        simp [resolveRouteResponse, hguard]
      rw [hfalse]
      simp [sinkCapable, hc]

/-- Claim C5 witness: a sink whose `status` member is not a function makes
the resolver return `false`, and nothing is sent. -/
theorem claim5_witness :
    sinkCapable (some ⟨false, true, true, true, false, false, false, false, false⟩) = false ∧
    resolveRouteResponse (some ⟨false, true, true, true, false, false, false, false, false⟩)
      (.obj [("status", .bool true)]) = (false, []) := by
  refine ⟨rfl, ?_⟩
  have h := (claim5_false_conditions
    (some ⟨false, true, true, true, false, false, false, false, false⟩)
    (.obj [("status", .bool true)])).2 rfl
  exact rfl

/-- Claim C6: on a capable sink that already reports a committed response,
`resolveRouteResponse` returns `true` and performs no mutation, whatever
the result value is — a second call on a committed sink is a no-op. -/
theorem claim6_committed_noop (s : Sink) (r : JSValue)
    (h1 : s.hasStatus = true) (h2 : s.hasSend = true) (h3 : s.headersSent = true) :
    resolveRouteResponse (some s) r = (true, []) := by
  unfold resolveRouteResponse
  simp [h1, h2, h3]

/-- Claim C6 witness: a committed sink is left untouched even by a failure
result that would otherwise send a 400 body. -/
theorem claim6_witness :
    resolveRouteResponse (some ⟨true, true, true, true, false, false, false, false, true⟩)
      (.obj [("status", .bool false), ("data", .str "oops")]) = (true, []) :=
  claim6_committed_noop _ _ rfl rfl rfl

/-- Claim C7: when the wrapped handler throws, the handler returned by
`wrapRoute` logs the thrown value exactly once under the effective tag
suffixed with `/catch` and, the sink being uncommitted and functional,
commits 500 with body `{error: message-if-truthy-else-"Unexpected error"}`
— a body without a `status` field. -/
theorem claim7_wrap_catch (pre : String) (tagOpt : Option String) (req : JSValue)
    (s : Sink) (err : JSValue)
    (hrel : s.reliable = true) (hns : s.headersSent = false) :
    wrapRoute pre tagOpt req (some s) (.error err) =
      ⟨.ok (), [.setStatus 500, .sendJson (.obj [("error",
          if jsTruthy (optField err "message") then optField err "message"
          else .str "Unexpected error")])],
        [(err, effectiveTag pre tagOpt req ++ "/catch")]⟩ := by
  obtain ⟨h1, _, h3, h4, _, h6⟩ := reliable_elim s hrel
  simp only [wrapRoute]
  exact wrapCatch_reliable s _ err h1 h3 h4 h6 hns

/-- Claim C7 witness: the spec scenario — the handler throws
`Error("boom")`; the handler logs it once under `"GET /x/catch"` and
commits 500 `{error:"boom"}`. -/
theorem claim7_witness :
    wrapRoute "" none (.obj [("method", .str "GET"), ("originalUrl", .str "/x")])
      (some okSink) (.error (.error "Error" "boom")) =
      ⟨.ok (), [.setStatus 500, .sendJson (.obj [("error", .str "boom")])],
        [(.error "Error" "boom", "GET /x/catch")]⟩ :=
  (claim7_wrap_catch "" none (.obj [("method", .str "GET"), ("originalUrl", .str "/x")])
    okSink (.error "Error" "boom") rfl rfl).trans rfl

/-- Claim C8 counterexample: with the explicit tag option present but equal
to `""`, the handler logs under the synthesized `"GET /x"` tag, not under
the given explicit tag — `options.tag || ...` discards a given-but-empty
tag, so "equals the explicit `tag` option when given" fails for the empty
string. -/
theorem claim8_counterexample :
    (wrapRoute "" (some "") (.obj [("method", .str "GET"), ("originalUrl", .str "/x")])
      (some okSink) (.error (.error "Error" "boom"))).logs =
      [(.error "Error" "boom", "GET /x/catch")] ∧
    ("GET /x/catch" : String) ≠ "" ++ "/catch" :=
  ⟨rfl, by decide⟩

/-- Claim C8 (amended): the effective logging tag of the handler returned
by `wrapRoute` equals the explicit `tag` option when that option is given
and non-empty, and otherwise the `"{method} {path}"` string synthesized
from the request with `"?"` for each missing field; in either case the
factory's configured tag prefix is prepended (an empty prefix is
invisible).  Observed here on the logging of a thrown handler error. -/
theorem claim8_effective_tag (pre : String) (tagOpt : Option String) (req : JSValue)
    (res? : Option Sink) (err : JSValue) :
    (wrapRoute pre tagOpt req res? (.error err)).logs =
      [(err, specTag pre tagOpt req ++ "/catch")] ∧
    effectiveTag pre tagOpt req = specTag pre tagOpt req := by
  refine ⟨?_, effectiveTag_eq_specTag pre tagOpt req⟩
  simp only [wrapRoute, wrapCatch_logs, effectiveTag_eq_specTag]

/-- Claim C9: two result values that differ only in their `meta` field
drive `resolveRouteResponse` identically: same return value and the same
sequence of sink operations — `meta` is never read and never rendered. -/
theorem claim9_meta_opaque (res? : Option Sink) (r v1 v2 : JSValue) :
    resolveRouteResponse res? (setMeta r v1) = resolveRouteResponse res? (setMeta r v2) := by
  rw [resolve_setMeta, resolve_setMeta]

/-- Claim C10: the capability guard never inspects `json`; on a sink with
`status`/`send` functions but no `json` method, `resolveRouteResponse`
still returns `true` for every result, while no JSON body is ever
committed (the throw of the missing `json` call is absorbed by the outer
safety net). -/
theorem claim10_json_guard_gap (s : Sink) (r : JSValue)
    (h1 : s.hasStatus = true) (h2 : s.hasSend = true) (hj : s.hasJson = false) :
    (resolveRouteResponse (some s) r).1 = true ∧
    hasJsonBody (resolveRouteResponse (some s) r).2 = false :=
  ⟨resolve_fst_capable s r h1 h2, hasJsonBody_resolve_noJson s r hj⟩

/-- Claim C10 witness: a success result whose data needs a JSON body, on a
sink without `json`: the resolver still reports `true` and no body is
committed. -/
theorem claim10_witness :
    (resolveRouteResponse (some ⟨true, true, false, true, false, false, false, false, false⟩)
      (.obj [("status", .bool true), ("data", .obj [("id", .num 1)])])).1 = true ∧
    hasJsonBody (resolveRouteResponse
      (some ⟨true, true, false, true, false, false, false, false, false⟩)
      (.obj [("status", .bool true), ("data", .obj [("id", .num 1)])])).2 = false :=
  claim10_json_guard_gap _ _ rfl rfl rfl

end RouteUtils
